import Mathlib

/-!
Shallow embedding of the CoGenAssess / GenRisk repository
(src/src/genrisk/pipeline.py, src/src/genrisk/helpers.py,
src/src/genrisk/cli.py, src/src/cogenassess/cli.py) and proofs about it.

Modelling conventions:
* floating point cells are modelled as `Option ℚ`: `some q` is a finite
  float, `none` models a non-finite value (NaN or ±inf) and also a missing
  cell, since the code treats those uniformly (`replace`/`dropna`);
* a Python function that can raise is embedded in `Except String`,
  the error string naming the exception raised;
* external statistical library calls (scipy.stats, statsmodels, pycaret)
  are boundary collaborators and are passed in as a record of functions
  (`StatsLib` / `CaretLib`); a field returning `Option` models a call that
  may raise (`none` = the call raised);
* a dataframe written with `to_csv` is recorded as a `FileWrite` event
  holding the written table.
-/

/-- A dataframe cell holding a float: `some q` a finite value, `none`
models NaN/±inf (also produced by pandas for a missing field). -/
abbrev V := Option ℚ

/-- The result of a fitted statsmodels regression (`result.pvalues`,
`result.params`, `result.bse`), as the lists the code converts them to. -/
structure FitRes where
  pvalues : List ℚ
  params : List ℚ
  bse : List ℚ
deriving DecidableEq

/-- The external statistical collaborators used by the association engine.
Each `Option`-valued field models a library call that may raise
(`none` = an exception was raised by the call). -/
structure StatsLib where
  mannwhitneyu : List V → List V → Option (ℚ × ℚ)
  ttest_ind : List V → List V → Option (ℚ × ℚ)
  logitFit : List V → List (List V) → Option FitRes
  glmFit : List V → List (List V) → Option FitRes
  ols : List V → List (List V) → Option FitRes
  multipletests : String → List ℚ → List ℚ
  pearsonr : List ℚ → List ℚ → ℚ × ℚ

/-- One row of the phenotype ("genotype") file as read by `find_pvalue`
with `usecols=[samples_column, cases_column]`: the sample id and the
outcome cell (`none` = missing/NaN outcome). -/
structure PhenoRow where
  iid : String
  outcome : Option ℚ
deriving DecidableEq

/-- A score matrix: the sample-identifier column followed by one column
per gene (`scores_df.columns = [samplesCol] ++ genes`); each row pairs a
sample id with its score cells, aligned with `genes`. -/
structure ScoresDf where
  samplesCol : String
  genes : List String
  rows : List (String × List V)
deriving DecidableEq

/-- One row of the merged phenotype × scores dataframe
(`pd.merge(genotype_df, scores_df, on=samples_column)` after `dropna`):
sample id, outcome value, and the score cells aligned with the gene list. -/
structure MergedRow where
  iid : String
  outcome : ℚ
  scores : List V
deriving DecidableEq

/-- The merged dataframe: gene column names plus the merged rows. -/
structure GeneFrame where
  genes : List String
  rows : List MergedRow
deriving DecidableEq

/-- One row of an association / correlation result table: the gene name,
all numeric cells in column order, and the value of the `p_value` column
(the cell the table is sorted by; it also occurs at its labelled position
inside `vals`). -/
structure ResultRow where
  gene : String
  vals : List ℚ
  pval : ℚ
deriving DecidableEq

/-- An association / correlation result table: header and rows. -/
structure ResultDf where
  cols : List String
  rows : List ResultRow
deriving DecidableEq

/-- A `to_csv` call: the output path and the table written there. -/
structure FileWrite where
  path : String
  table : ResultDf
deriving DecidableEq

/-- `sort_values(by=[p_value])`: sort the rows ascending by the
`p_value` cell. -/
def sortByPval (rows : List ResultRow) : List ResultRow :=
  rows.mergeSort (fun a b => a.pval ≤ b.pval)

/-- `genotype_df.dropna(subset=[cases_column], inplace=True)`: phenotype
rows whose outcome cell is missing are dropped. -/
def fp_dropna (g : List PhenoRow) : List PhenoRow :=
  g.filter (fun p => p.outcome.isSome)

/-- `pd.merge(genotype_df, scores_df, on=samples_column)`: an inner join
on the sample identifier; one output row per matching pair, in left-frame
order (ties in right-frame order), as pandas produces it. -/
def fp_merge (g : List PhenoRow) (s : ScoresDf) : GeneFrame :=
  { genes := s.genes,
    rows := g.flatMap (fun p =>
      match p.outcome with
      | some o => s.rows.filterMap (fun r =>
          if r.1 = p.iid then some ⟨p.iid, o, r.2⟩ else none)
      | none => []) }

/-- Python truthiness of an optional string option (`if covariates:` /
`if adj_pval:`): `None` and the empty string are falsy. -/
def strTruthy : Option String → Bool
  | none => false
  | some s => s ≠ ""

/-- `covariates.split(',')` guarded by `if covariates:`. A falsy value
(None or `""`) is left unsplit; it is modelled as `none` because every
later use of an unsplit value (`[gene] + covariates`) raises TypeError
exactly as `None` does. -/
def covSplit : Option String → Option (List String)
  | none => none
  | some s => if s = "" then none else some (s.splitOn ",")

/-- The keys of `merged_df.groupby(cases_column)` (`groups.keys()`):
the distinct outcome values in ascending order (pandas groupby sorts its
keys by default). -/
def fp_groupKeys (rows : List MergedRow) : List ℚ :=
  ((rows.map (fun r => r.outcome)).dedup).mergeSort (fun a b => a ≤ b)

/-- `cc`: the two compared categories. `if cases and controls:` uses the
explicit pair (Python truthiness: a `0` category is falsy and falls
through to the groupby keys); otherwise the groupby key list is used. -/
def fp_cc (rows : List MergedRow) (cases controls : Option ℚ) : List ℚ :=
  match cases, controls with
  | some c, some k => if c ≠ 0 ∧ k ≠ 0 then [c, k] else fp_groupKeys rows
  | _, _ => fp_groupKeys rows

/-- The default gene list: `scores_df.columns.tolist()[1:]`, i.e. every
column after the sample-identifier column. -/
def fp_default_genes (s : ScoresDf) : List String :=
  s.genes

/-- `cc[i]`: list indexing, raising IndexError when out of range. -/
def fp_listGet (cc : List ℚ) (i : Nat) : Except String ℚ :=
  match cc.get? i with
  | some k => .ok k
  | none => .error "IndexError: list index out of range"

/-- `df_by_cases.get_group(k)`: the merged rows whose outcome equals `k`,
in frame order; raises KeyError when `k` is not a group key. -/
def fp_getGroup (rows : List MergedRow) (k : ℚ) : Except String (List MergedRow) :=
  if rows.any (fun r => r.outcome = k) then .ok (rows.filter (fun r => r.outcome = k))
  else .error "KeyError: group key not found"

/-- Position of a gene column in the merged frame; `df[gene]` raises
KeyError when the column is absent. -/
def fp_geneIdx (df : GeneFrame) (g : String) : Except String Nat :=
  match df.genes.findIdx? (fun x => x = g) with
  | some i => .ok i
  | none => .error "KeyError: gene column not found"

/-- The values of gene column `g` over a row list (`get_group(k)[gene]`),
given the gene's column index. -/
def fp_colVals (rows : List MergedRow) (i : Nat) : List V :=
  rows.map (fun r => r.scores.getD i none)

/-- The gene-score values handed to a two-group test for group key `k`
and gene `g`: the gene column of the rows whose outcome is `k`. -/
def fp_caseVals (df : GeneFrame) (k : ℚ) (g : String) : List V :=
  fp_colVals (df.rows.filter (fun r => r.outcome = k))
    ((df.genes.findIdx? (fun x => x = g)).getD 0)

/-- The per-gene loop of the `mannwhitneyu` / `ttest_ind` branches of
`find_pvalue`: for each gene the two group columns are fetched
(`get_group(cc[0])[gene]`, `get_group(cc[1])[gene]`, all outside the
`try`), the test is run inside `try`, and on an exception (`none`) the
gene is skipped (`continue`); otherwise `[gene, statistic, p_val]` is
appended. -/
def fp_twoGroupLoop (testFn : List V → List V → Option (ℚ × ℚ))
    (df : GeneFrame) (cc : List ℚ) :
    List String → Except String (List ResultRow)
  | [] => .ok []
  | g :: gs => do
      let k0 ← fp_listGet cc 0
      let k1 ← fp_listGet cc 1
      let grp0 ← fp_getGroup df.rows k0
      let grp1 ← fp_getGroup df.rows k1
      let i ← fp_geneIdx df g
      let case0 := fp_colVals grp0 i
      let case1 := fp_colVals grp1 i
      let rest ← fp_twoGroupLoop testFn df cc gs
      match testFn case0 case1 with
      | none => .ok rest
      | some (st, p) => .ok (⟨g, [st, p], p⟩ :: rest)

/-- `pd.DataFrame(p_values, columns=[genes, statistic, p_value])
.sort_values(by=[p_value])`. -/
def mkTestDf (rows : List ResultRow) : ResultDf :=
  { cols := ["genes", "statistic", "p_value"], rows := sortByPval rows }

/-- A pandas column key as the `logit`/`glm` branches build it:
either a proper string label or a (non-hashable) list of labels —
the branches write `merged_df[[cols]]` with `cols` itself a list. -/
inductive PdLabel
  | str (s : String)
  | listLabel (l : List String)
deriving DecidableEq

/-- `merged_df[keys]` for a list-valued key: each element must be a
hashable column label; a list-valued element raises (this is what
`merged_df[[cols]]` does, since its single element `cols` is a list).
String labels select the outcome column (named `cases_column` in the
merged frame) or a gene column. -/
def fp_selectCols (df : GeneFrame) (casesColumn : String) (keys : List PdLabel) :
    Except String (List (List V)) :=
  keys.mapM (fun k =>
    match k with
    | .listLabel _ => .error "TypeError: unhashable type: list"
    | .str s =>
        if s = casesColumn then .ok (df.rows.map (fun r => (some r.outcome : V)))
        else match df.genes.findIdx? (fun x => x = s) with
          | some i => .ok (fp_colVals df.rows i)
          | none => .error "KeyError: column not found")

/-- `[gene] + covariates`: concatenating a list with a non-list
(`None`, or an unsplit falsy string) raises TypeError. -/
def expectList (covs : Option (List String)) : Except String (List String) :=
  match covs with
  | some l => .ok l
  | none => .error "TypeError: can only concatenate list to list"

/-- The per-gene loop of the `logit` / `glm` branches of `find_pvalue`.
Each iteration builds `cols = [gene] + covariates`, selects
`X = merged_df[[cols]]` (a list-valued key — this raises), would add the
constant column, select `Y = merged_df[[cases_column]]`, fit inside
`try` (an exception skips the gene), and append
`[gene] + pvalues (+ [beta_coef]` for `glm)`. -/
def fp_regLoop (fitFn : List V → List (List V) → Option FitRes)
    (withBeta : Bool) (df : GeneFrame) (casesColumn : String)
    (covs : Option (List String)) :
    List String → Except String (List ResultRow)
  | [] => .ok []
  | g :: gs => do
      let cs ← expectList covs
      let x0 ← fp_selectCols df casesColumn [PdLabel.listLabel (g :: cs)]
      let xC := (List.replicate df.rows.length (some (1 : ℚ) : V)) :: x0
      let y0 ← fp_selectCols df casesColumn [PdLabel.str casesColumn]
      let rest ← fp_regLoop fitFn withBeta df casesColumn covs gs
      match fitFn (y0.headD []) xC with
      | none => .ok rest
      | some r =>
          if withBeta then
            .ok (⟨g, r.pvalues ++ [r.params.getD 1 0], r.pvalues.getD 1 0⟩ :: rest)
          else
            .ok (⟨g, r.pvalues, r.pvalues.getD 1 0⟩ :: rest)

/-- The `test` dispatch of `find_pvalue`: the four in-process branches,
and `raise Exception(...)` for any other selector. -/
def fp_dispatch (lib : StatsLib) (df : GeneFrame) (casesColumn : String)
    (cc : List ℚ) (covs : Option (List String)) (genes : List String)
    (test : String) : Except String ResultDf :=
  match test with
  | "mannwhitneyu" => do
      let rows ← fp_twoGroupLoop lib.mannwhitneyu df cc genes
      .ok (mkTestDf rows)
  | "ttest_ind" => do
      let rows ← fp_twoGroupLoop lib.ttest_ind df cc genes
      .ok (mkTestDf rows)
  | "logit" => do
      let rows ← fp_regLoop lib.logitFit false df casesColumn covs genes
      let cs ← expectList covs
      .ok { cols := ["genes", "const_pval", "p_value"] ++ cs, rows := sortByPval rows }
  | "glm" => do
      let rows ← fp_regLoop lib.glmFit true df casesColumn covs genes
      let cs ← expectList covs
      .ok { cols := ["genes", "const_pval", "p_value"] ++ cs ++ ["beta_coef"],
            rows := sortByPval rows }
  | _ => .error "The test you selected is not valid."

/-- `if adj_pval: adjusted = multipletests(list(p_values_df[p_value]),
method=adj_pval); p_values_df[adj_pval + _adj_pval] = list(adjusted)[1]`.
`multipletests` is the statsmodels collaborator; `list(adjusted)[1]` is
the corrected p-value vector. Assigning a column whose length differs
from the frame raises ValueError. -/
def fp_addAdj (lib : StatsLib) (df : ResultDf) (adj : Option String) :
    Except String ResultDf :=
  if strTruthy adj then
    let meth := adj.getD ""
    let vals := lib.multipletests meth (df.rows.map (fun r => r.pval))
    if vals.length = df.rows.length then
      .ok { cols := df.cols ++ [meth ++ "_adj_pval"],
            rows := df.rows.zipWith (fun r a => ⟨r.gene, r.vals ++ [a], r.pval⟩) vals }
    else .error "ValueError: Length of values does not match length of index"
  else .ok df

/-- The preprocessed frame of `find_pvalue`: the phenotype table with
missing-outcome rows dropped, inner-joined to the score matrix. -/
def fp_prepared (scores_df : ScoresDf) (genotype_file : List PhenoRow) : GeneFrame :=
  fp_merge (fp_dropna genotype_file) scores_df

/-- `find_pvalue` (src/src/genrisk/pipeline.py): reads the phenotype file
(already parsed here to its two used columns), drops rows with missing
outcome, inner-joins to the score matrix on the sample column, groups by
outcome, splits the covariate string, picks the compared categories,
defaults the gene list to every column after the sample column,
dispatches on the test selector, optionally appends the adjusted p-value
column, writes the table tab-separated to `output_file` and returns it. -/
def find_pvalue (lib : StatsLib) (scores_df : ScoresDf)
    (genotype_file : List PhenoRow) (output_file : String)
    (genes? : Option (List String)) (cases_column samples_column : String)
    (test : String) (adj_pval : Option String) (covariates : Option String)
    (cases controls : Option ℚ) : Except String (ResultDf × List FileWrite) := do
  let df ← fp_dispatch lib (fp_prepared scores_df genotype_file) cases_column
    (fp_cc (fp_prepared scores_df genotype_file).rows cases controls)
    (covSplit covariates) (genes?.getD (fp_default_genes scores_df)) test
  let df2 ← fp_addAdj lib df adj_pval
  .ok (df2, [⟨output_file, df2⟩])

/-- One row of the merged frame handed to the helpers backends
(src/src/genrisk/helpers.py): outcome cell, covariate cells and gene
score cells, aligned with the frame's column name lists. -/
structure HRow where
  outcome : V
  covs : List V
  scores : List V
deriving DecidableEq

/-- The merged frame handed to `get_pvals_linear` / `get_pvals_logit` /
`run_mannwhitneyu` / `run_ttest` via `kwargs[df]`: covariate column
names, gene column names, and the rows. -/
structure HFrame where
  covNames : List String
  geneNames : List String
  rows : List HRow
deriving DecidableEq

/-- The cells of covariate column `c` (`df[covariates]`, one column). -/
def hCovCol (df : HFrame) (c : String) : List V :=
  df.rows.map (fun r => r.covs.getD ((df.covNames.findIdx? (fun x => x = c)).getD 0) none)

/-- The cells of gene column `g` (`df[genes]`, one column). -/
def hGeneCol (df : HFrame) (g : String) : List V :=
  df.rows.map (fun r => r.scores.getD ((df.geneNames.findIdx? (fun x => x = g)).getD 0) none)

/-- `sm.add_constant(x_set)`: prepend the constant column to the design
columns. -/
def addConstant (n : Nat) (x : List (String × List V)) : List (List V) :=
  (List.replicate n (some (1 : ℚ) : V)) :: x.map (fun c => c.2)

/-- `run_linear` (helpers.py): append the gene column to the covariate
frame, add the constant, fit `sm.OLS(y_set, x_set)` — there is no
`try/except` here, so an exception from the fit (`none`) propagates —
and return `[gene] + pvalues + [params[-1], bse[-1]]`. The gene is the
last regressor, so the `p_value` cell is the last entry of `pvalues`. -/
def run_linear (lib : StatsLib) (gene_col : String × List V)
    (x_set : List (String × List V)) (y_set : List V) :
    Except String ResultRow :=
  let x1 := x_set ++ [gene_col]
  let x2 := addConstant y_set.length x1
  match lib.ols y_set x2 with
  | none => .error "OLS fit raised"
  | some r =>
      .ok ⟨gene_col.1, r.pvalues ++ [r.params.getLastD 0, r.bse.getLastD 0],
        r.pvalues.getLastD 0⟩

/-- `run_logit` (helpers.py): like `run_linear` but fitting
`sm.Logit(y_set, x_set)` and returning `[gene] + pvalues + [bse[-1]]`;
again no `try/except`, so a fit exception propagates. -/
def run_logit (lib : StatsLib) (gene_col : String × List V)
    (x_set : List (String × List V)) (y_set : List V) :
    Except String ResultRow :=
  let x1 := x_set ++ [gene_col]
  let x2 := addConstant y_set.length x1
  match lib.logitFit y_set x2 with
  | none => .error "Logit fit raised"
  | some r =>
      .ok ⟨gene_col.1, r.pvalues ++ [r.bse.getLastD 0], r.pvalues.getLastD 0⟩

/-- `np.interp(y, (y.min(), y.max()), (0, 1))` applied to the outcome
column by `get_pvals_logit`: min-max rescaling into [0,1]. pandas
min/max skip NaN cells; `np.interp` maps a NaN input to NaN and clips to
the right endpoint when the two interpolation knots coincide. -/
def minmaxRescale (ys : List V) : List V :=
  let fin := ys.filterMap (fun v => v)
  match fin.min?, fin.max? with
  | some lo, some hi =>
      ys.map (fun v => v.map (fun x => if hi ≤ lo then 1 else (x - lo) / (hi - lo)))
  | _, _ => ys

/-- `x_set = df[covariates]`: the covariate design columns. -/
def hXset (df : HFrame) (covariates : List String) : List (String × List V) :=
  covariates.map (fun c => (c, hCovCol df c))

/-- `genes_df = df[genes]` as the column pairs `genes_df.iteritems()`
hands to the worker. -/
def hGcols (df : HFrame) (genes : List String) : List (String × List V) :=
  genes.map (fun g => (g, hGeneCol df g))

/-- `y_set = df[[cases_column]]`: the outcome column. -/
def hYset (df : HFrame) : List V :=
  df.rows.map (fun r => r.outcome)

/-- `get_pvals_linear` (helpers.py): build `y_set = df[[cases_column]]`,
`x_set = df[covariates]`, `genes_df = df[genes]` (KeyError when a column
is missing), run `run_linear` over the gene columns through
`pool.imap` — materialising the iterator re-raises any worker exception,
so one failing gene aborts the whole computation (modelled by `mapM`) —
then sort the rows ascending by p-value. The worker-pool size
`processes` does not affect the result value. -/
def get_pvals_linear (lib : StatsLib) (df : HFrame)
    (genes covariates : List String) (processes : Nat) :
    Except String ResultDf := do
  if covariates.all (fun c => df.covNames.contains c) then
    if genes.all (fun g => df.geneNames.contains g) then
      let rows ← (hGcols df genes).mapM
        (fun gc => run_linear lib gc (hXset df covariates) (hYset df))
      .ok { cols := ["genes", "const_pval"] ++ covariates ++ ["p_value", "beta_coef", "std_err"],
            rows := sortByPval rows }
    else .error "KeyError: gene column not found"
  else .error "KeyError: covariate column not found"

/-- `get_pvals_logit` (helpers.py): the outcome column is min-max
rescaled into [0,1] first, then as `get_pvals_linear` with `run_logit`;
a worker exception again propagates through `pool.imap`. -/
def get_pvals_logit (lib : StatsLib) (df : HFrame)
    (genes covariates : List String) (processes : Nat) :
    Except String ResultDf := do
  if covariates.all (fun c => df.covNames.contains c) then
    if genes.all (fun g => df.geneNames.contains g) then
      let rows ← (hGcols df genes).mapM
        (fun gc => run_logit lib gc (hXset df covariates) (minmaxRescale (hYset df)))
      .ok { cols := ["genes", "const_pval"] ++ covariates ++ ["p_value", "std_err"],
            rows := sortByPval rows }
    else .error "KeyError: gene column not found"
  else .error "KeyError: covariate column not found"

/-- `run_mannwhitneyu` (helpers.py): same two-group selection and
per-gene try/except loop as the `mannwhitneyu` branch of `find_pvalue`,
over the merged frame given in `kwargs`. -/
def run_mannwhitneyu (lib : StatsLib) (df : GeneFrame) (genes : List String)
    (cases controls : Option ℚ) : Except String ResultDf := do
  let cc := fp_cc df.rows cases controls
  let rows ← fp_twoGroupLoop lib.mannwhitneyu df cc genes
  .ok (mkTestDf rows)

/-- `run_ttest` (helpers.py): as `run_mannwhitneyu` with
`stats.ttest_ind`. -/
def run_ttest (lib : StatsLib) (df : GeneFrame) (genes : List String)
    (cases controls : Option ℚ) : Except String ResultDf := do
  let cc := fp_cc df.rows cases controls
  let rows ← fp_twoGroupLoop lib.ttest_ind df cc genes
  .ok (mkTestDf rows)

/-- The character class of the gene-name capture group in
`re.compile("([a-zA-Z0-9_.-]*).profile$")`. -/
def classChar (c : Char) : Bool :=
  c.isAlphanum || c = '_' || c = '.' || c = '-'

/-- The longest suffix of `s` consisting of capture-class characters. -/
def classSuffix (s : List Char) : List Char :=
  (s.reverse.takeWhile classChar).reverse

/-- `r.findall(str(f))` for `r = re.compile("([a-zA-Z0-9_.-]*).profile$")`,
returning the single capture when the pattern matches. The pattern
matches iff the name has at least 8 characters and ends in `profile`
(the unescaped `.` matches any character); the leftmost match maximises
the captured class-character run, so the capture is the longest
class-character suffix before the final 8 characters. -/
def profileGene (s : List Char) : Option (List Char) :=
  if 8 ≤ s.length ∧ s.drop (s.length - 7) = ['p','r','o','f','i','l','e'] then
    some (classSuffix (s.take (s.length - 8)))
  else none

/-- One per-gene plink score report (`*.profile`): filename and the
parsed (`IID`, `SCORESUM`) rows. -/
structure ProfileFile where
  name : List Char
  rows : List (String × V)
deriving DecidableEq

/-- `uni_profiles` (helpers.py): read a per-gene score file, extract the
gene name from the filename (`gene2[0]` raises IndexError when the
pattern found nothing), rename its `SCORESUM` column to the gene name,
and inner-join it to the accumulated frame on `IID`. -/
def uni_profiles (df : ScoresDf) (f : ProfileFile) : Except String ScoresDf :=
  match profileGene f.name with
  | none => .error "IndexError: list index out of range"
  | some g =>
      .ok { samplesCol := df.samplesCol,
            genes := df.genes ++ [String.mk g],
            rows := df.rows.flatMap (fun r =>
              f.rows.filterMap (fun p =>
                if p.1 = r.1 then some (r.1, r.2 ++ [p.2]) else none)) }

/-- Modelled from the spec: the base frame of `combine_scores`
(src utils.py is not in the source tree; §4.3 of the spec). The first
per-gene report is read, its gene name extracted from the filename and
its `SCORESUM` column renamed to it, giving the starting frame of the
successive inner joins. -/
def profileToFrame (f : ProfileFile) : Except String ScoresDf :=
  match profileGene f.name with
  | none => .error "IndexError: list index out of range"
  | some g =>
      .ok { samplesCol := "IID", genes := [String.mk g],
            rows := f.rows.map (fun p => (p.1, [p.2])) }

/-- A write of an assembled score matrix. -/
structure MatrixWrite where
  path : String
  table : ScoresDf
deriving DecidableEq

/-- Modelled from the spec: `combine_scores(input_path, output_path)`
(src utils.py is not in the source tree; §4.3 of the spec): every
per-gene score report in the directory is merged by successive inner
joins on the sample-identifier column, starting from a base frame, each
join step being `uni_profiles` (from the source); the result is written
tab-separated to the output path and returned. An empty directory is a
MissingData failure (§4.3 errors). -/
def combine_scores : List ProfileFile → String → Except String (ScoresDf × List MatrixWrite)
  | [], _ => .error "MissingData: no profile files in input directory"
  | f :: fs, output_path => do
      let base ← profileToFrame f
      let df ← fs.foldlM uni_profiles base
      .ok (df, [⟨output_path, df⟩])

/-- `list.remove(x)` on a header list: removes the first occurrence,
raising ValueError when absent. -/
def listRemove (l : List String) (x : String) : Except String (List String) :=
  if l.contains x then .ok (l.erase x) else .error "ValueError: list.remove(x): x not in list"

/-- The loop body of `calc_corr` for one shared gene: inner-join the two
one-gene frames on the sample column, replace ±inf/NaN cells by 0.0
(`getD 0`), run `pearsonr` on the two columns and build the
`[gene, corr, p_value]` row. -/
def corrRow (lib : StatsLib) (mx1 mx2 : ScoresDf) (g : String) :
    Except String ResultRow := do
  let i1 ← fp_geneIdx ⟨mx1.genes, []⟩ g
  let i2 ← fp_geneIdx ⟨mx2.genes, []⟩ g
  let pairs := mx1.rows.flatMap (fun r =>
    mx2.rows.filterMap (fun srow =>
      if srow.1 = r.1 then some (r.2.getD i1 none, srow.2.getD i2 none) else none))
  let cp := lib.pearsonr (pairs.map (fun pr => pr.1.getD 0)) (pairs.map (fun pr => pr.2.getD 0))
  pure (⟨g, [cp.1, cp.2], cp.2⟩ : ResultRow)

/-- The intersection of the two gene-column name sets, in first-file
first-occurrence order (Python set iteration order is unspecified). -/
def corrGenes (genes01 genes02 : List String) : List String :=
  genes01.dedup.filter (fun g => genes02.contains g)

/-- `calc_corr` (src/src/cogenassess/cli.py): read both headers and drop
the sample column from each (`list.remove`, raising when absent),
intersect the two gene-column sets, compute the per-gene correlation
rows, sort ascending by p-value and write tab-separated. -/
def calc_corr (lib : StatsLib) (mx1 mx2 : ScoresDf)
    (samples_col : String) (output_file : String) :
    Except String (ResultDf × List FileWrite) := do
  let genes01 ← listRemove (mx1.samplesCol :: mx1.genes) samples_col
  let genes02 ← listRemove (mx2.samplesCol :: mx2.genes) samples_col
  let rows ← (corrGenes genes01 genes02).mapM (corrRow lib mx1 mx2)
  .ok ({ cols := ["genes", "corr", "p_value"], rows := sortByPval rows },
       [⟨output_file, { cols := ["genes", "corr", "p_value"], rows := sortByPval rows }⟩])

/-- A plot file produced by the `visualize` command. -/
inductive VisEvent
  | qqplot (file : String)
  | manhattan (file : String)
deriving DecidableEq

/-- `visualize` (src/src/genrisk/cli.py): the p-value table is read,
then `if qq_output:` the QQ plot is drawn and written (`draw_qqplot`,
utils.py, modelled from the spec as an emitted plot file; the
`pvals_df[pval_col]` access raises KeyError when the column is absent);
then `if manhattan_output:` the info file is required — missing, an
exception is raised after the QQ file was already produced — otherwise
the tables are merged and the Manhattan plot drawn. Returns the plot
events emitted together with the outcome. -/
def visualize (pvals_cols : List String) (info_file : Option String)
    (qq_output manhattan_output : Option String) (pval_col : String) :
    List VisEvent × Except String Unit :=
  if strTruthy qq_output ∧ ¬ pvals_cols.contains pval_col then
    ([], .error "KeyError: p-value column not found")
  else
    let ev1 : List VisEvent :=
      if strTruthy qq_output then [.qqplot (qq_output.getD "")] else []
    if strTruthy manhattan_output then
      if ¬ strTruthy info_file then
        (ev1, .error "Please provide a file with gene information to generate manhattan plot.")
      else (ev1 ++ [.manhattan (manhattan_output.getD "")], .ok ())
    else (ev1, .ok ())

/-- The pycaret collaborators consulted by `create_prediction_model`:
`check_metric` over the holdout predictions, one field per metric used. -/
structure CaretLib where
  r2 : List (List ℚ) → ℚ
  rmse : List (List ℚ) → ℚ
  auc : List (List ℚ) → ℚ
  accuracy : List (List ℚ) → ℚ

/-- A side-effecting pycaret / filesystem step of
`create_prediction_model`, in invocation order. -/
inductive CPMAction
  | setup
  | compareModels
  | createModel
  | tuneModel
  | plotModel (kind : String)
  | finalizeModel
  | predictModel
  | saveModel (name : String)
  | writeCsv (file : String)
  | writeLog (file : String)
deriving DecidableEq

/-- The value `create_prediction_model` returns: either
`(metrics, final_model)` (the model abstracted to its name), or an
`Exception` object constructed and returned as a plain value — not
raised. -/
inductive CPMValue
  | metricsAndModel (metrics : Option (List String)) (model : String)
  | exceptionValue (msg : String)
deriving DecidableEq

/-- `create_prediction_model` (pipeline.py): dispatch on `model_type`.
`regressor`/`classifier` run the pycaret experiment (setup, compare,
create, tune, plots, finalize, optional holdout evaluation, save,
reports); any other kind returns — without raising — the constructed
`Exception` value, performing none of those steps. The result is the
ordered action trace paired with the outcome; `.error` models a raised
exception (the regressor path raises TypeError when it iterates a
`None` metrics list, and evaluating `len(testing_set.index)` on the
default `None` testing set raises AttributeError). -/
def create_prediction_model (lib : CaretLib) (model_name : String)
    (model_type : String) (y_col : String) (imbalanced normalize : Bool)
    (folds : Nat) (training_set : List (List ℚ))
    (testing_set : Option (List (List ℚ))) (test_size : ℚ)
    (metric : Option String) : List CPMAction × Except String CPMValue :=
  let _ := (y_col, imbalanced, normalize, folds, training_set, test_size)
  if model_type = "regressor" then
    let _metric := if strTruthy metric then metric.getD "" else "RMSE"
    let acts0 : List CPMAction :=
      [.setup, .compareModels, .createModel, .tuneModel,
       .plotModel "residuals", .plotModel "feature", .plotModel "error",
       .finalizeModel]
    match testing_set with
    | none => (acts0, .error "AttributeError: NoneType object has no attribute index")
    | some ts =>
        let metrics : Option (List String) :=
          if ts.length ≠ 0 then
            some ["R2: " ++ toString (lib.r2 ts), "RMSE: " ++ toString (lib.rmse ts)]
          else none
        let acts1 := acts0 ++ (if ts.length ≠ 0 then [CPMAction.predictModel] else [])
          ++ [.saveModel model_name,
              .writeCsv (model_name ++ "_evaluation.tsv"),
              .writeCsv (model_name ++ "_logs.logs")]
        match metrics with
        | none => (acts1, .error "TypeError: NoneType object is not iterable")
        | some ms =>
            (acts1 ++ [.writeLog (model_name ++ ".log")],
             .ok (.metricsAndModel (some ms) model_name))
  else if model_type = "classifier" then
    let _metric := if strTruthy metric then metric.getD "" else "AUC"
    let acts0 : List CPMAction :=
      [.setup, .compareModels, .createModel, .tuneModel,
       .plotModel "pr", .plotModel "confusion_matrix", .plotModel "feature",
       .finalizeModel]
    match testing_set with
    | none => (acts0, .error "AttributeError: NoneType object has no attribute index")
    | some ts =>
        let metrics : Option (List String) :=
          if ts.length ≠ 0 then
            some ["AUC: " ++ toString (lib.auc ts), "Accuracy: " ++ toString (lib.accuracy ts)]
          else none
        let acts1 := acts0 ++ (if ts.length ≠ 0 then [CPMAction.predictModel] else [])
          ++ [.saveModel model_name,
              .writeCsv (model_name ++ "_evaluation.tsv"),
              .writeCsv (model_name ++ "_logs.logs")]
        (acts1, .ok (.metricsAndModel metrics model_name))
  else
    ([], .ok (.exceptionValue "Model requested is not available. Please choose regressor or classifier."))

/-- The statsmodels `multipletests` correction for `method=bonferroni`:
each raw p-value is multiplied by the number of tests and clipped at 1
(the corrected-p-value component of the returned tuple). -/
def multipletests_bonferroni (ps : List ℚ) : List ℚ :=
  ps.map (fun p => min (p * ps.length) 1)

/-- Written from the spec's words, for comparison with the code: "the
default gene set being every non-constant gene column" — the gene
columns of a score matrix whose cells take at least two distinct
values. -/
def spec_nonconstant_genes (s : ScoresDf) : List String :=
  (List.range s.genes.length).filterMap (fun i =>
    if 2 ≤ ((s.rows.map (fun r => r.2.getD i none)).dedup).length
    then s.genes.get? i else none)

/-- A concrete collaborator instance whose calls all succeed, used to
evaluate the embedding on concrete inputs. -/
def trivStats : StatsLib :=
  { mannwhitneyu := fun c0 c1 => let _ := (c0, c1); some (1, 1/2)
    ttest_ind := fun c0 c1 => let _ := (c0, c1); some (2, 1/3)
    logitFit := fun y x => let _ := (y, x); some ⟨[1/4, 1/5], [1, 2], [1, 1]⟩
    glmFit := fun y x => let _ := (y, x); some ⟨[1/4, 1/5], [1, 2], [1, 1]⟩
    ols := fun y x => let _ := (y, x); some ⟨[1/4, 1/5], [1, 2], [1, 1]⟩
    multipletests := fun m ps => let _ := m; multipletests_bonferroni ps
    pearsonr := fun a b => let _ := (a, b); (1, 0) }

/-- A concrete collaborator instance whose test / fit calls raise
exactly when the gene column handed to them contains the value 9 (a
marker for a degenerate column), used to exhibit per-gene failures. -/
def failStats : StatsLib :=
  { mannwhitneyu := fun c0 c1 => let _ := c1
      if c0.contains (some 9) then none else some (1, 1/2)
    ttest_ind := fun c0 c1 => let _ := c1
      if c0.contains (some 9) then none else some (2, 1/3)
    logitFit := fun y x => let _ := y
      if x.any (fun col => col.contains (some 9)) then none
      else some ⟨[1/4, 1/5], [1, 2], [1, 1]⟩
    glmFit := fun y x => let _ := y
      if x.any (fun col => col.contains (some 9)) then none
      else some ⟨[1/4, 1/5], [1, 2], [1, 1]⟩
    ols := fun y x => let _ := y
      if x.any (fun col => col.contains (some 9)) then none
      else some ⟨[1/4, 1/5], [1, 2], [1, 1]⟩
    multipletests := fun m ps => let _ := m; multipletests_bonferroni ps
    pearsonr := fun a b => let _ := (a, b); (1, 0) }

/-- A concrete pycaret collaborator instance. -/
def caretTriv : CaretLib :=
  { r2 := fun t => let _ := t; 9/10
    rmse := fun t => let _ := t; 1/10
    auc := fun t => let _ := t; 4/5
    accuracy := fun t => let _ := t; 3/4 }

/-- A concrete score matrix: gene column `g2` is constant, and `g1`
holds a non-finite cell for sample `s1`. -/
def scoresA : ScoresDf :=
  { samplesCol := "IID", genes := ["g1", "g2"],
    rows := [("s1", [none, some 5]), ("s2", [some 2, some 5]), ("s3", [some 9, some 5])] }

/-- A concrete phenotype table: `s4` has a missing outcome, `s5` is
absent from `scoresA`. -/
def phenoA : List PhenoRow :=
  [⟨"s1", some 0⟩, ⟨"s2", some 1⟩, ⟨"s3", some 0⟩, ⟨"s4", none⟩, ⟨"s5", some 1⟩]

/-- A concrete helpers frame with one covariate and one gene column. -/
def hframeA : HFrame :=
  { covNames := ["PC1"], geneNames := ["g1"],
    rows := [⟨some 0, [some 1], [some 1]⟩, ⟨some 1, [some 2], [some 2]⟩] }

/-- A concrete helpers frame whose gene column `g2` carries the failure
marker 9: its fit raises under `failStats` while `g1` and `g3`
succeed. -/
def hframeB : HFrame :=
  { covNames := ["PC1"], geneNames := ["g1", "g2", "g3"],
    rows := [⟨some 0, [some 1], [some 1, some 9, some 3]⟩,
             ⟨some 1, [some 2], [some 2, some 9, some 4]⟩] }

/-- A concrete merged frame whose gene column `g2` carries the failure
marker 9: its two-group test raises under `failStats` while `g1`
succeeds. -/
def gframeA : GeneFrame :=
  { genes := ["g1", "g2"],
    rows := [⟨"s1", 0, [some 1, some 9]⟩, ⟨"s2", 1, [some 2, some 9]⟩] }

/-- A concrete per-gene score report for gene `A` over samples s1, s2. -/
def profA : ProfileFile :=
  { name := ['A', '.', 'p', 'r', 'o', 'f', 'i', 'l', 'e'],
    rows := [("s1", some 1), ("s2", some 2)] }

/-- A concrete per-gene score report for gene `B` over samples s2, s3:
`profA` and `profB` share only sample s2. -/
def profB : ProfileFile :=
  { name := ['B', '.', 'p', 'r', 'o', 'f', 'i', 'l', 'e'],
    rows := [("s2", some 3), ("s3", some 4)] }

theorem mapM_ok_mem {ε α β : Type} (f : α → Except ε β) :
    ∀ (l : List α) (res : List β), l.mapM f = .ok res → ∀ a ∈ l, ∃ b, f a = .ok b := by
  intro l
  induction l with
  | nil => simp
  | cons x xs ih =>
    intro res h a ha
    rw [List.mapM_cons] at h
    cases hx : f x with
    | error e => rw [hx] at h; simp [Bind.bind, Except.bind] at h
    | ok b =>
      rw [hx] at h
      simp only [Bind.bind, Except.bind] at h
      cases hxs : xs.mapM f with
      | error e => rw [hxs] at h; simp at h
      | ok bs =>
        rw [hxs] at h
        rcases List.mem_cons.mp ha with rfl | ha2
        · exact ⟨b, hx⟩
        · exact ih bs hxs a ha2

theorem sortByPval_sorted (rows : List ResultRow) :
    List.Sorted (fun a b : ResultRow => a.pval ≤ b.pval) (sortByPval rows) := by
  have h := @List.sorted_mergeSort ResultRow (fun a b => decide (a.pval ≤ b.pval))
    (fun a b c h1 h2 => by simp_all; exact le_trans h1 h2)
    (fun a b => by simpa using le_total a.pval b.pval) rows
  simpa [sortByPval, List.Sorted] using h

theorem sortByPval_perm (rows : List ResultRow) : (sortByPval rows).Perm rows :=
  List.mergeSort_perm rows _

theorem mem_zipWith_pval (vals : List ℚ) :
    ∀ (rows : List ResultRow) (x : ResultRow),
      x ∈ rows.zipWith (fun r a => (⟨r.gene, r.vals ++ [a], r.pval⟩ : ResultRow)) vals →
      ∃ r ∈ rows, x.pval = r.pval := by
  induction vals with
  | nil => intro rows x hx; simp at hx
  | cons v vs ih =>
    intro rows x hx
    cases rows with
    | nil => simp at hx
    | cons r rs =>
      rcases List.mem_cons.mp hx with rfl | hx2
      · exact ⟨r, List.mem_cons_self r rs, rfl⟩
      · obtain ⟨r2, hr2, hp⟩ := ih rs x hx2
        exact ⟨r2, List.mem_cons_of_mem r hr2, hp⟩

theorem pairwise_pval_zipWith (vals : List ℚ) :
    ∀ (rows : List ResultRow),
      List.Pairwise (fun a b : ResultRow => a.pval ≤ b.pval) rows →
      List.Pairwise (fun a b : ResultRow => a.pval ≤ b.pval)
        (rows.zipWith (fun r a => (⟨r.gene, r.vals ++ [a], r.pval⟩ : ResultRow)) vals) := by
  induction vals with
  | nil => intro rows hp; simp
  | cons v vs ih =>
    intro rows hp
    cases rows with
    | nil => simp
    | cons r rs =>
      rcases List.pairwise_cons.mp hp with ⟨hhead, htail⟩
      refine List.pairwise_cons.mpr ⟨?_, ih rs htail⟩
      intro x hx
      obtain ⟨r2, hr2, hpv⟩ := mem_zipWith_pval vs rs x hx
      simpa [hpv] using hhead r2 hr2

theorem fp_addAdj_ok_sorted (lib : StatsLib) (df : ResultDf) (adj : Option String)
    (df2 : ResultDf) (h : fp_addAdj lib df adj = .ok df2)
    (hs : List.Sorted (fun a b : ResultRow => a.pval ≤ b.pval) df.rows) :
    List.Sorted (fun a b : ResultRow => a.pval ≤ b.pval) df2.rows := by
  unfold fp_addAdj at h
  split at h
  · simp only [] at h
    split at h
    · rw [Except.ok.injEq] at h
      subst h
      exact pairwise_pval_zipWith _ df.rows hs
    · simp at h
  · rw [Except.ok.injEq] at h
    subst h
    exact hs

theorem fp_dispatch_ok_sorted (lib : StatsLib) (df : GeneFrame) (ccol : String)
    (cc : List ℚ) (covs : Option (List String)) (genes : List String)
    (test : String) (d : ResultDf)
    (h : fp_dispatch lib df ccol cc covs genes test = .ok d) :
    List.Sorted (fun a b : ResultRow => a.pval ≤ b.pval) d.rows := by
  unfold fp_dispatch at h
  split at h
  · cases hl : fp_twoGroupLoop lib.mannwhitneyu df cc genes with
    | error e => rw [hl] at h; simp [Bind.bind, Except.bind] at h
    | ok rows =>
      rw [hl] at h
      simp only [Bind.bind, Except.bind, Except.ok.injEq] at h
      subst h
      exact sortByPval_sorted rows
  · cases hl : fp_twoGroupLoop lib.ttest_ind df cc genes with
    | error e => rw [hl] at h; simp [Bind.bind, Except.bind] at h
    | ok rows =>
      rw [hl] at h
      simp only [Bind.bind, Except.bind, Except.ok.injEq] at h
      subst h
      exact sortByPval_sorted rows
  · cases hl : fp_regLoop lib.logitFit false df ccol covs genes with
    | error e => rw [hl] at h; simp [Bind.bind, Except.bind] at h
    | ok rows =>
      rw [hl] at h
      cases hc : expectList covs with
      | error e => rw [hc] at h; simp [Bind.bind, Except.bind] at h
      | ok cs =>
        rw [hc] at h
        simp only [Bind.bind, Except.bind, Except.ok.injEq] at h
        subst h
        exact sortByPval_sorted rows
  · cases hl : fp_regLoop lib.glmFit true df ccol covs genes with
    | error e => rw [hl] at h; simp [Bind.bind, Except.bind] at h
    | ok rows =>
      rw [hl] at h
      cases hc : expectList covs with
      | error e => rw [hc] at h; simp [Bind.bind, Except.bind] at h
      | ok cs =>
        rw [hc] at h
        simp only [Bind.bind, Except.bind, Except.ok.injEq] at h
        subst h
        exact sortByPval_sorted rows
  · simp at h

/-- C1: every association result table produced by `find_pvalue` (tests
`mannwhitneyu`, `ttest_ind`, `logit`, `glm`), every table produced by the
parallel linear / logit backends, and every correlation table produced
by `calc_corr`, is sorted ascending by the `p_value` column, both in the
returned dataframe and (where the function itself writes) in the table
written to the output path. -/
theorem claim_C1_results_sorted_by_pvalue :
    (∀ (lib : StatsLib) (s : ScoresDf) (geno : List PhenoRow) (out : String)
       (genes? : Option (List String)) (ccol scol test : String)
       (adj covsStr : Option String) (cs ct : Option ℚ)
       (df : ResultDf) (w : List FileWrite),
       find_pvalue lib s geno out genes? ccol scol test adj covsStr cs ct = .ok (df, w) →
       List.Sorted (fun a b : ResultRow => a.pval ≤ b.pval) df.rows ∧ w = [⟨out, df⟩]) ∧
    (∀ (lib : StatsLib) (df : HFrame) (genes covariates : List String) (p : Nat)
       (rdf : ResultDf),
       get_pvals_linear lib df genes covariates p = .ok rdf →
       List.Sorted (fun a b : ResultRow => a.pval ≤ b.pval) rdf.rows) ∧
    (∀ (lib : StatsLib) (df : HFrame) (genes covariates : List String) (p : Nat)
       (rdf : ResultDf),
       get_pvals_logit lib df genes covariates p = .ok rdf →
       List.Sorted (fun a b : ResultRow => a.pval ≤ b.pval) rdf.rows) ∧
    (∀ (lib : StatsLib) (mx1 mx2 : ScoresDf) (sc out : String)
       (df : ResultDf) (w : List FileWrite),
       calc_corr lib mx1 mx2 sc out = .ok (df, w) →
       List.Sorted (fun a b : ResultRow => a.pval ≤ b.pval) df.rows ∧ w = [⟨out, df⟩]) := by
  refine ⟨?_, ?_, ?_, ?_⟩
  · intro lib s geno out genes? ccol scol test adj covsStr cs ct df w h
    unfold find_pvalue at h
    cases hd : fp_dispatch lib (fp_prepared s geno) ccol
        (fp_cc (fp_prepared s geno).rows cs ct) (covSplit covsStr)
        (genes?.getD (fp_default_genes s)) test with
    | error e => rw [hd] at h; simp [Bind.bind, Except.bind] at h
    | ok d1 =>
      rw [hd] at h
      simp only [Bind.bind, Except.bind] at h
      cases ha : fp_addAdj lib d1 adj with
      | error e => rw [ha] at h; simp [Bind.bind, Except.bind] at h
      | ok d2 =>
        rw [ha] at h
        simp only [Bind.bind, Except.bind, Except.ok.injEq, Prod.mk.injEq] at h
        obtain ⟨rfl, rfl⟩ := h
        exact ⟨fp_addAdj_ok_sorted lib d1 adj d2 ha
          (fp_dispatch_ok_sorted lib _ ccol _ _ _ test d1 hd), rfl⟩
  · intro lib df genes covariates p rdf h
    unfold get_pvals_linear at h
    split at h
    · split at h
      · cases hm : (hGcols df genes).mapM
            (fun gc => run_linear lib gc (hXset df covariates) (hYset df)) with
        | error e => rw [hm] at h; simp [Bind.bind, Except.bind] at h
        | ok rows =>
          rw [hm] at h
          simp only [Bind.bind, Except.bind, Except.ok.injEq] at h
          subst h
          exact sortByPval_sorted rows
      · simp at h
    · simp at h
  · intro lib df genes covariates p rdf h
    unfold get_pvals_logit at h
    split at h
    · split at h
      · cases hm : (hGcols df genes).mapM
            (fun gc => run_logit lib gc (hXset df covariates) (minmaxRescale (hYset df))) with
        | error e => rw [hm] at h; simp [Bind.bind, Except.bind] at h
        | ok rows =>
          rw [hm] at h
          simp only [Bind.bind, Except.bind, Except.ok.injEq] at h
          subst h
          exact sortByPval_sorted rows
      · simp at h
    · simp at h
  · intro lib mx1 mx2 sc out df w h
    unfold calc_corr at h
    cases h1 : listRemove (mx1.samplesCol :: mx1.genes) sc with
    | error e => rw [h1] at h; simp [Bind.bind, Except.bind] at h
    | ok genes01 =>
      rw [h1] at h
      simp only [Bind.bind, Except.bind] at h
      cases h2 : listRemove (mx2.samplesCol :: mx2.genes) sc with
      | error e => rw [h2] at h; simp [Bind.bind, Except.bind] at h
      | ok genes02 =>
        rw [h2] at h
        simp only [Bind.bind, Except.bind] at h
        cases hm : (corrGenes genes01 genes02).mapM (corrRow lib mx1 mx2) with
        | error e => rw [hm] at h; simp [Bind.bind, Except.bind] at h
        | ok rows =>
          rw [hm] at h
          simp only [Bind.bind, Except.bind, Except.ok.injEq, Prod.mk.injEq] at h
          obtain ⟨rfl, rfl⟩ := h
          exact ⟨sortByPval_sorted rows, rfl⟩

theorem findIdx_exists_of_mem {l : List String} {a : String} (h : a ∈ l) :
    ∃ i, l.findIdx? (fun x => x = a) = some i := by
  have hs : (l.findIdx? (fun x => x = a)).isSome := by
    rw [List.findIdx?_isSome]
    exact List.any_eq_true.mpr ⟨a, h, by simp⟩
  exact Option.isSome_iff_exists.mp hs

theorem uni_profiles_ok (df : ScoresDf) (f : ProfileFile) (d2 : ScoresDf)
    (h : uni_profiles df f = .ok d2) :
    (∃ g, profileGene f.name = some g ∧ d2.genes = df.genes ++ [String.mk g]) ∧
    (∀ iid, iid ∈ d2.rows.map Prod.fst ↔
      iid ∈ df.rows.map Prod.fst ∧ iid ∈ f.rows.map Prod.fst) := by
  unfold uni_profiles at h
  cases hg : profileGene f.name with
  | none => rw [hg] at h; simp at h
  | some g =>
    rw [hg] at h
    rw [Except.ok.injEq] at h
    subst h
    refine ⟨⟨g, rfl, rfl⟩, ?_⟩
    intro iid
    constructor
    · intro hm
      simp only [List.mem_map, List.mem_flatMap, List.mem_filterMap] at hm
      obtain ⟨x, ⟨r, hr, p, hp, hif⟩, hfst⟩ := hm
      by_cases hc : p.1 = r.1
      · rw [if_pos hc] at hif
        rw [Option.some.injEq] at hif
        subst hif
        simp only at hfst
        subst hfst
        constructor
        · exact List.mem_map.mpr ⟨r, hr, rfl⟩
        · exact List.mem_map.mpr ⟨p, hp, hc⟩
      · rw [if_neg hc] at hif
        exact absurd hif (by simp)
    · rintro ⟨h1, h2⟩
      obtain ⟨r, hr, hr1⟩ := List.mem_map.mp h1
      obtain ⟨p, hp, hp1⟩ := List.mem_map.mp h2
      refine List.mem_map.mpr ⟨(r.1, r.2 ++ [p.2]), ?_, hr1⟩
      refine List.mem_flatMap.mpr ⟨r, hr, ?_⟩
      refine List.mem_filterMap.mpr ⟨p, hp, ?_⟩
      rw [if_pos (by rw [hp1, hr1])]

theorem foldl_uni_profiles (fs : List ProfileFile) :
    ∀ (base d2 : ScoresDf), fs.foldlM uni_profiles base = .ok d2 →
      (∀ iid, iid ∈ d2.rows.map Prod.fst ↔
        iid ∈ base.rows.map Prod.fst ∧ ∀ f ∈ fs, iid ∈ f.rows.map Prod.fst) ∧
      d2.genes = base.genes ++
        fs.filterMap (fun f => (profileGene f.name).map (fun g => String.mk g)) := by
  induction fs with
  | nil =>
    intro base d2 h
    simp only [List.foldlM_nil, pure, Except.pure, Except.ok.injEq] at h
    subst h
    simp
  | cons f fs ih =>
    intro base d2 h
    rw [List.foldlM_cons] at h
    cases hu : uni_profiles base f with
    | error e => rw [hu] at h; simp [Bind.bind, Except.bind] at h
    | ok b2 =>
      rw [hu] at h
      simp only [Bind.bind, Except.bind] at h
      obtain ⟨⟨g, hg, hgen⟩, hkeys⟩ := uni_profiles_ok base f b2 hu
      obtain ⟨ihkeys, ihgen⟩ := ih b2 d2 h
      constructor
      · intro iid
        rw [ihkeys iid, hkeys iid]
        simp only [List.forall_mem_cons]
        tauto
      · rw [ihgen, hgen, List.filterMap_cons, hg]
        simp [List.append_assoc]

/-- C2: score-matrix assembly joins per-gene profile files by successive
inner joins on the `IID` column: the assembled matrix's sample set is
exactly the intersection of the sample-identifier sets of the inputs
(never the union), and each per-gene `SCORESUM` column is renamed to the
gene name extracted from the filename before the `.profile` suffix. -/
theorem claim_C2_combine_scores_intersection :
    ∀ (files : List ProfileFile) (out : String) (df : ScoresDf) (w : List MatrixWrite),
      combine_scores files out = .ok (df, w) →
      (∀ iid, iid ∈ df.rows.map Prod.fst ↔ ∀ f ∈ files, iid ∈ f.rows.map Prod.fst) ∧
      df.genes = files.filterMap (fun f => (profileGene f.name).map (fun g => String.mk g)) := by
  intro files out df w h
  cases files with
  | nil => simp [combine_scores] at h
  | cons f fs =>
    rw [combine_scores] at h
    cases hb : profileToFrame f with
    | error e => rw [hb] at h; simp [Bind.bind, Except.bind] at h
    | ok base =>
      rw [hb] at h
      simp only [Bind.bind, Except.bind] at h
      cases hf : fs.foldlM uni_profiles base with
      | error e => rw [hf] at h; simp at h
      | ok d2 =>
        rw [hf] at h
        simp only [Except.ok.injEq, Prod.mk.injEq] at h
        obtain ⟨rfl, rfl⟩ := h
        unfold profileToFrame at hb
        cases hg : profileGene f.name with
        | none => rw [hg] at hb; simp at hb
        | some g =>
          rw [hg] at hb
          rw [Except.ok.injEq] at hb
          subst hb
          obtain ⟨hkeys, hgen⟩ := foldl_uni_profiles fs _ _ hf
          constructor
          · intro iid
            rw [hkeys iid]
            simp only [List.forall_mem_cons, List.map_map]
            constructor
            · rintro ⟨h1, h2⟩
              refine ⟨?_, h2⟩
              simpa using h1
            · rintro ⟨h1, h2⟩
              refine ⟨?_, h2⟩
              simpa using h1
          · rw [hgen, List.filterMap_cons, hg]
            simp

theorem fp_twoGroupLoop_skips (testFn : List V → List V → Option (ℚ × ℚ))
    (df : GeneFrame) (cc : List ℚ) (k0 k1 : ℚ)
    (h0 : fp_listGet cc 0 = .ok k0) (h1 : fp_listGet cc 1 = .ok k1)
    (hg0 : df.rows.any (fun r => r.outcome = k0) = true)
    (hg1 : df.rows.any (fun r => r.outcome = k1) = true) :
    ∀ genes : List String, (∀ g ∈ genes, g ∈ df.genes) →
      ∃ rows, fp_twoGroupLoop testFn df cc genes = .ok rows ∧
        rows.map (fun r => r.gene) =
          genes.filter (fun g =>
            (testFn (fp_caseVals df k0 g) (fp_caseVals df k1 g)).isSome) := by
  intro genes
  induction genes with
  | nil => intro _; exact ⟨[], rfl, rfl⟩
  | cons g gs ih =>
    intro hmem
    obtain ⟨rows2, hr2, hmap⟩ := ih (fun x hx => hmem x (List.mem_cons_of_mem g hx))
    obtain ⟨i, hi⟩ := findIdx_exists_of_mem (hmem g (List.mem_cons_self g gs))
    have hgi : fp_geneIdx df g = .ok i := by unfold fp_geneIdx; rw [hi]
    have hG0 : fp_getGroup df.rows k0 = .ok (df.rows.filter (fun r => r.outcome = k0)) := by
      unfold fp_getGroup; rw [if_pos hg0]
    have hG1 : fp_getGroup df.rows k1 = .ok (df.rows.filter (fun r => r.outcome = k1)) := by
      unfold fp_getGroup; rw [if_pos hg1]
    have hcase0 : fp_colVals (df.rows.filter (fun r => r.outcome = k0)) i
        = fp_caseVals df k0 g := by
      unfold fp_caseVals; rw [hi]; rfl
    have hcase1 : fp_colVals (df.rows.filter (fun r => r.outcome = k1)) i
        = fp_caseVals df k1 g := by
      unfold fp_caseVals; rw [hi]; rfl
    cases hT : testFn (fp_caseVals df k0 g) (fp_caseVals df k1 g) with
    | none =>
      refine ⟨rows2, ?_, ?_⟩
      · simp only [fp_twoGroupLoop, h0, h1, hG0, hG1, hgi, hr2, Bind.bind, Except.bind]
        rw [hcase0, hcase1, hT]
      · rw [List.filter_cons]
        simp only [hT, Option.isSome_none, Bool.false_eq_true, if_false]
        exact hmap
    | some pr =>
      obtain ⟨st, p⟩ := pr
      refine ⟨⟨g, [st, p], p⟩ :: rows2, ?_, ?_⟩
      · simp only [fp_twoGroupLoop, h0, h1, hG0, hG1, hgi, hr2, Bind.bind, Except.bind]
        rw [hcase0, hcase1, hT]
      · rw [List.filter_cons]
        simp only [hT, Option.isSome_some, if_true]
        simp only [List.map_cons]
        rw [hmap]

/-- C3 (amended): per-gene failures are caught and the gene skipped in
the sequential two-group loop shared by the `mannwhitneyu`/`ttest_ind`
branches of `find_pvalue` and by `run_mannwhitneyu`/`run_ttest` — the
result drops exactly the failing genes and the remaining genes complete;
but in the parallel linear and logit backends a per-gene exception is
not caught: the whole computation yields a result table only when every
gene's fit succeeds (a single failure aborts the run). -/
theorem claim_C3_per_gene_failures :
    (∀ (testFn : List V → List V → Option (ℚ × ℚ)) (df : GeneFrame) (cc : List ℚ)
       (k0 k1 : ℚ) (genes : List String),
       fp_listGet cc 0 = .ok k0 → fp_listGet cc 1 = .ok k1 →
       df.rows.any (fun r => r.outcome = k0) = true →
       df.rows.any (fun r => r.outcome = k1) = true →
       (∀ g ∈ genes, g ∈ df.genes) →
       ∃ rows, fp_twoGroupLoop testFn df cc genes = .ok rows ∧
         rows.map (fun r => r.gene) =
           genes.filter (fun g =>
             (testFn (fp_caseVals df k0 g) (fp_caseVals df k1 g)).isSome)) ∧
    (∀ (lib : StatsLib) (df : HFrame) (genes covariates : List String) (p : Nat)
       (rdf : ResultDf),
       get_pvals_linear lib df genes covariates p = .ok rdf →
       ∀ g ∈ genes, ∃ row,
         run_linear lib (g, hGeneCol df g) (hXset df covariates) (hYset df) = .ok row) ∧
    (∀ (lib : StatsLib) (df : HFrame) (genes covariates : List String) (p : Nat)
       (rdf : ResultDf),
       get_pvals_logit lib df genes covariates p = .ok rdf →
       ∀ g ∈ genes, ∃ row,
         run_logit lib (g, hGeneCol df g) (hXset df covariates)
           (minmaxRescale (hYset df)) = .ok row) := by
  refine ⟨?_, ?_, ?_⟩
  · intro testFn df cc k0 k1 genes h0 h1 hg0 hg1 hmem
    exact fp_twoGroupLoop_skips testFn df cc k0 k1 h0 h1 hg0 hg1 genes hmem
  · intro lib df genes covariates p rdf h g hg
    unfold get_pvals_linear at h
    split at h
    · split at h
      · cases hm : (hGcols df genes).mapM
            (fun gc => run_linear lib gc (hXset df covariates) (hYset df)) with
        | error e => rw [hm] at h; simp [Bind.bind, Except.bind] at h
        | ok rows =>
          exact mapM_ok_mem _ _ rows hm (g, hGeneCol df g)
            (List.mem_map.mpr ⟨g, hg, rfl⟩)
      · simp at h
    · simp at h
  · intro lib df genes covariates p rdf h g hg
    unfold get_pvals_logit at h
    split at h
    · split at h
      · cases hm : (hGcols df genes).mapM
            (fun gc => run_logit lib gc (hXset df covariates) (minmaxRescale (hYset df))) with
        | error e => rw [hm] at h; simp [Bind.bind, Except.bind] at h
        | ok rows =>
          exact mapM_ok_mem _ _ rows hm (g, hGeneCol df g)
            (List.mem_map.mpr ⟨g, hg, rfl⟩)
      · simp at h
    · simp at h

/-- C3 (counterexample): in the parallel linear backend a failing fit
for one gene (`g2`) is not caught: the whole run aborts with the raised
exception and no table containing the remaining genes is produced, even
though the same input with the failing gene removed succeeds. -/
theorem claim_C3_counterexample :
    get_pvals_linear failStats hframeB ["g1", "g2", "g3"] ["PC1"] 1 =
      .error "OLS fit raised" ∧
    ∃ rdf, get_pvals_linear failStats hframeB ["g1", "g3"] ["PC1"] 1 = .ok rdf :=
  ⟨rfl, ⟨_, rfl⟩⟩

/-- C4 (counterexample): `find_pvalue` does not exclude constant gene
columns from the default gene set — the default is every column after
the sample column, so it differs from the spec-side non-constant set on
`scoresA` (whose `g2` is constant) — and a non-finite score cell is not
replaced by zero: the `none` cell of `g1` reaches the values handed to
the test. -/
theorem claim_C4_counterexample :
    fp_default_genes scoresA ≠ spec_nonconstant_genes scoresA ∧
    spec_nonconstant_genes scoresA = ["g1"] ∧
    fp_default_genes scoresA = ["g1", "g2"] ∧
    none ∈ fp_caseVals (fp_prepared scoresA phenoA) 0 "g1" := by
  refine ⟨by decide, by decide, rfl, by decide⟩

/-- C4 (amended): before any test runs, `find_pvalue` drops phenotype
rows with a missing outcome value and inner-joins the phenotype table to
the score matrix on the sample identifier; the score cells are passed
through unchanged (non-finite cells are not zeroed) and the default gene
set is every column after the sample column, constant columns
included. -/
theorem claim_C4_preprocessing :
    (∀ (G : List PhenoRow) (p : PhenoRow),
       p ∈ fp_dropna G ↔ p ∈ G ∧ p.outcome.isSome) ∧
    (∀ (S : ScoresDf) (G : List PhenoRow) (r : MergedRow),
       r ∈ (fp_prepared S G).rows ↔
         ∃ p ∈ G, ∃ srow ∈ S.rows, p.outcome = some r.outcome ∧
           r.iid = p.iid ∧ srow.1 = p.iid ∧ r.scores = srow.2) ∧
    (∀ S : ScoresDf, fp_default_genes S = S.genes) := by
  refine ⟨?_, ?_, fun S => rfl⟩
  · intro G p
    simp [fp_dropna, List.mem_filter]
  · intro S G r
    unfold fp_prepared fp_merge
    simp only [List.mem_flatMap]
    constructor
    · rintro ⟨p, hp, hr⟩
      have hpG : p ∈ G ∧ p.outcome.isSome := by
        simpa [fp_dropna, List.mem_filter] using hp
      cases ho : p.outcome with
      | none => rw [ho] at hr; simp at hr
      | some o =>
        rw [ho] at hr
        obtain ⟨srow, hsrow, hif⟩ := List.mem_filterMap.mp hr
        by_cases hc : srow.1 = p.iid
        · rw [if_pos hc] at hif
          rw [Option.some.injEq] at hif
          subst hif
          exact ⟨p, hpG.1, srow, hsrow, by rw [ho], rfl, hc, rfl⟩
        · rw [if_neg hc] at hif
          exact absurd hif (by simp)
    · rintro ⟨p, hp, srow, hsrow, ho, hiid, hkey, hsc⟩
      refine ⟨p, ?_, ?_⟩
      · simp [fp_dropna, List.mem_filter, hp, ho]
      · rw [ho]
        refine List.mem_filterMap.mpr ⟨srow, hsrow, ?_⟩
        rw [if_pos hkey]
        rw [Option.some.injEq]
        cases r
        simp only at hiid hsc
        subst hiid
        subst hsc
        rfl

theorem map_pval_zipWith :
    ∀ (rows : List ResultRow) (vals : List ℚ), vals.length = rows.length →
      ((rows.zipWith (fun r a => (⟨r.gene, r.vals ++ [a], r.pval⟩ : ResultRow)) vals).map
        (fun r => r.pval)) = rows.map (fun r => r.pval) := by
  intro rows
  induction rows with
  | nil => intro vals h; simp
  | cons r rs ih =>
    intro vals h
    cases vals with
    | nil => simp at h
    | cons v vs =>
      simp only [List.zipWith_cons_cons, List.map_cons]
      rw [ih vs (by simpa using h)]

theorem map_getLast_zipWith :
    ∀ (rows : List ResultRow) (vals : List ℚ), vals.length = rows.length →
      ((rows.zipWith (fun r a => (⟨r.gene, r.vals ++ [a], r.pval⟩ : ResultRow)) vals).map
        (fun r => r.vals.getLast?)) = vals.map some := by
  intro rows
  induction rows with
  | nil =>
    intro vals h
    rw [List.length_nil, List.length_eq_zero] at h
    subst h
    simp
  | cons r rs ih =>
    intro vals h
    cases vals with
    | nil => simp at h
    | cons v vs =>
      simp only [List.zipWith_cons_cons, List.map_cons]
      rw [ih vs (by simpa using h)]
      simp [List.getLast?_concat]

/-- C5: when an adjustment method is given, `find_pvalue` appends
exactly one additional column, named `<method>_adj_pval`, holding the
output of the `multipletests` collaborator applied to the full (sorted)
p-value vector of the unadjusted table, leaving the p-value column
unchanged; and the statsmodels `bonferroni` correction applied to
[0.01, 0.02, 0.5] yields [0.03, 0.06, 1.0] (each raw value multiplied by
3, capped at 1.0). -/
theorem claim_C5_adjusted_pvalue_column :
    (∀ (lib : StatsLib) (s : ScoresDf) (geno : List PhenoRow) (out : String)
       (genes? : Option (List String)) (ccol scol test : String)
       (covsStr : Option String) (cs ct : Option ℚ) (meth : String)
       (df0 : ResultDf) (w0 : List FileWrite),
       meth ≠ "" →
       find_pvalue lib s geno out genes? ccol scol test none covsStr cs ct = .ok (df0, w0) →
       (lib.multipletests meth (df0.rows.map (fun r => r.pval))).length = df0.rows.length →
       ∃ df w,
         find_pvalue lib s geno out genes? ccol scol test (some meth) covsStr cs ct
           = .ok (df, w) ∧
         df.cols = df0.cols ++ [meth ++ "_adj_pval"] ∧
         df.rows.map (fun r => r.pval) = df0.rows.map (fun r => r.pval) ∧
         df.rows.map (fun r => r.vals.getLast?) =
           (lib.multipletests meth (df0.rows.map (fun r => r.pval))).map some ∧
         w = [⟨out, df⟩]) ∧
    multipletests_bonferroni [1/100, 1/50, 1/2] = [3/100, 3/50, 1] := by
  constructor
  · intro lib s geno out genes? ccol scol test covsStr cs ct meth df0 w0 hmeth h0 hlen
    unfold find_pvalue at h0
    cases hd : fp_dispatch lib (fp_prepared s geno) ccol
        (fp_cc (fp_prepared s geno).rows cs ct) (covSplit covsStr)
        (genes?.getD (fp_default_genes s)) test with
    | error e => rw [hd] at h0; simp [Bind.bind, Except.bind] at h0
    | ok d1 =>
      rw [hd] at h0
      simp only [Bind.bind, Except.bind] at h0
      have hnone : fp_addAdj lib d1 none = .ok d1 := by
        unfold fp_addAdj; rfl
      rw [hnone] at h0
      simp only [Except.ok.injEq, Prod.mk.injEq] at h0
      obtain ⟨rfl, rfl⟩ := h0
      have hadj : fp_addAdj lib d1 (some meth) =
          .ok { cols := d1.cols ++ [meth ++ "_adj_pval"],
                rows := d1.rows.zipWith
                  (fun r a => ⟨r.gene, r.vals ++ [a], r.pval⟩)
                  (lib.multipletests meth (d1.rows.map (fun r => r.pval))) } := by
        unfold fp_addAdj
        rw [if_pos (by simp [strTruthy, hmeth])]
        simp only [Option.getD_some]
        rw [if_pos hlen]
      have hfull : find_pvalue lib s geno out genes? ccol scol test (some meth) covsStr cs ct =
          (fp_addAdj lib d1 (some meth)).map
            (fun d => (d, [(⟨out, d⟩ : FileWrite)])) := by
        unfold find_pvalue
        rw [hd]
        cases h2 : fp_addAdj lib d1 (some meth) <;>
          simp [h2, Bind.bind, Except.bind, Except.map]
      rw [hadj] at hfull
      simp only [Except.map] at hfull
      exact ⟨_, _, hfull, rfl, map_pval_zipWith d1.rows _ hlen,
        map_getLast_zipWith d1.rows _ hlen, rfl⟩
  · simp [multipletests_bonferroni, min_def]
    norm_num

/-- C6 (code bug): under the `glm` selector `find_pvalue` never reaches
a model fit. The branch selects `X = merged_df[[cols]]` where `cols` is
itself a list (`[gene] + covariates`), so pandas is handed a list-valued
— non-hashable — column label and raises before `sm.GLM` is ever
constructed; on this concrete input the whole call aborts with that
exception instead of producing a per-gene result row. -/
theorem claim_C6_glm_branch_raises :
    find_pvalue trivStats scoresA phenoA "out.tsv" (some ["g1"]) "pheno" "IID"
      "glm" none (some "PC1") none none = .error "TypeError: unhashable type: list" := by
  rfl

/-- C7: for every test selector outside the recognized set, `find_pvalue`
raises (`Exception`, surfaced by the spec as InvalidInput) and the write
to the output path is never reached: the call yields an error and no
`FileWrite` event. -/
theorem claim_C7_invalid_test_error :
    ∀ (lib : StatsLib) (s : ScoresDf) (geno : List PhenoRow) (out : String)
      (genes? : Option (List String)) (ccol scol test : String)
      (adj covsStr : Option String) (cs ct : Option ℚ),
      test ≠ "mannwhitneyu" → test ≠ "ttest_ind" → test ≠ "logit" → test ≠ "glm" →
      find_pvalue lib s geno out genes? ccol scol test adj covsStr cs ct =
        .error "The test you selected is not valid." := by
  intro lib s geno out genes? ccol scol test adj covsStr cs ct h1 h2 h3 h4
  have hd : fp_dispatch lib (fp_prepared s geno) ccol
      (fp_cc (fp_prepared s geno).rows cs ct) (covSplit covsStr)
      (genes?.getD (fp_default_genes s)) test =
      .error "The test you selected is not valid." := by
    unfold fp_dispatch
    split
    · exact absurd rfl h1
    · exact absurd rfl h2
    · exact absurd rfl h3
    · exact absurd rfl h4
    · rfl
  unfold find_pvalue
  rw [hd]
  rfl

/-- C8: `create_prediction_model` with a model kind other than
`regressor` or `classifier` constructs the error value naming the valid
choices and returns it without raising (`.ok` of an `exceptionValue`),
performing no training, fitting or serialization step (empty action
trace). -/
theorem claim_C8_invalid_model_type_returned :
    ∀ (lib : CaretLib) (mn mt y : String) (imb nor : Bool) (folds : Nat)
      (tr : List (List ℚ)) (ts : Option (List (List ℚ))) (tsz : ℚ)
      (metric : Option String),
      mt ≠ "regressor" → mt ≠ "classifier" →
      create_prediction_model lib mn mt y imb nor folds tr ts tsz metric =
        ([], .ok (.exceptionValue
          "Model requested is not available. Please choose regressor or classifier.")) := by
  intro lib mn mt y imb nor folds tr ts tsz metric h1 h2
  unfold create_prediction_model
  rw [if_neg h1, if_neg h2]

theorem fp_groupKeys_sorted (rows : List MergedRow) :
    List.Sorted (fun a b : ℚ => a ≤ b) (fp_groupKeys rows) := by
  have h := @List.sorted_mergeSort ℚ (fun a b => decide (a ≤ b))
    (fun a b c hab hbc => by simp_all; exact le_trans hab hbc)
    (fun a b => by simpa using le_total a b)
    ((rows.map (fun r => r.outcome)).dedup)
  simpa [fp_groupKeys, List.Sorted] using h

theorem fp_groupKeys_nodup (rows : List MergedRow) : (fp_groupKeys rows).Nodup := by
  unfold fp_groupKeys
  exact ((List.mergeSort_perm _ _).nodup_iff).mpr (List.nodup_dedup _)

theorem fp_groupKeys_mem (rows : List MergedRow) (x : ℚ) :
    x ∈ fp_groupKeys rows ↔ x ∈ rows.map (fun r => r.outcome) := by
  unfold fp_groupKeys
  rw [(List.mergeSort_perm _ _).mem_iff, List.mem_dedup]

/-- C9: in the two-group tests, when no explicit cases/controls pair is
supplied the compared categories are the first two keys of the pandas
groupby of the outcome column — the sorted, deduplicated key list — so
`cc[0]` and `cc[1]` are the two smallest distinct outcome values and the
selection is a deterministic function of the input. -/
theorem claim_C9_group_selection :
    ∀ (rows : List MergedRow) (k0 k1 : ℚ),
      (fp_cc rows none none).get? 0 = some k0 →
      (fp_cc rows none none).get? 1 = some k1 →
      fp_cc rows none none = fp_groupKeys rows ∧
      k0 ∈ rows.map (fun r => r.outcome) ∧
      k1 ∈ rows.map (fun r => r.outcome) ∧
      k0 < k1 ∧
      (∀ x ∈ rows.map (fun r => r.outcome), k0 ≤ x) ∧
      (∀ x ∈ rows.map (fun r => r.outcome), x ≠ k0 → k1 ≤ x) := by
  intro rows k0 k1 h0 h1
  have hcc : fp_cc rows none none = fp_groupKeys rows := rfl
  rw [hcc] at h0 h1
  have hsorted := fp_groupKeys_sorted rows
  have hnodup := fp_groupKeys_nodup rows
  cases hl : fp_groupKeys rows with
  | nil => rw [hl] at h0; simp at h0
  | cons a t =>
    rw [hl] at h0 h1
    simp only [List.get?_cons_zero, Option.some.injEq] at h0
    subst h0
    cases t with
    | nil => simp at h1
    | cons b t2 =>
      simp only [List.get?_cons_succ, List.get?_cons_zero, Option.some.injEq] at h1
      subst h1
      rw [hl] at hsorted hnodup
      have hmemks : ∀ x, x ∈ fp_groupKeys rows ↔ x ∈ rows.map (fun r => r.outcome) :=
        fun x => fp_groupKeys_mem rows x
      rw [hl] at hmemks
      obtain ⟨hhead, htail⟩ := List.pairwise_cons.mp hsorted
      obtain ⟨hhead2, _⟩ := List.pairwise_cons.mp htail
      obtain ⟨hnotmem, hnodup2⟩ := List.nodup_cons.mp hnodup
      refine ⟨hcc.trans hl, ?_, ?_, ?_, ?_, ?_⟩
      · exact (hmemks a).mp (List.mem_cons_self a (b :: t2))
      · exact (hmemks b).mp (List.mem_cons_of_mem a (List.mem_cons_self b t2))
      · refine lt_of_le_of_ne (hhead b (List.mem_cons_self b t2)) ?_
        intro he
        exact hnotmem (he ▸ List.mem_cons_self b t2)
      · intro x hx
        rcases List.mem_cons.mp ((hmemks x).mpr hx) with rfl | hx2
        · exact le_refl x
        · exact hhead x hx2
      · intro x hx hne
        rcases List.mem_cons.mp ((hmemks x).mpr hx) with rfl | hx2
        · exact absurd rfl hne
        · rcases List.mem_cons.mp hx2 with rfl | hx3
          · exact le_refl x
          · exact hhead2 x hx3

/-- C10: in the `visualize` command, when both a QQ output and a
Manhattan output are requested but no info file is given, the QQ plot
file is produced first and only then is the missing-info-file exception
raised for the Manhattan plot: the failing call still emits the QQ plot
event. -/
theorem claim_C10_qq_before_manhattan_error :
    ∀ (pvals_cols : List String) (q m pcol : String),
      q ≠ "" → m ≠ "" → pvals_cols.contains pcol = true →
      visualize pvals_cols none (some q) (some m) pcol =
        ([.qqplot q],
         .error "Please provide a file with gene information to generate manhattan plot.") := by
  intro pvals_cols q m pcol hq hm hc
  have hmem : pcol ∈ pvals_cols := by simpa using hc
  unfold visualize
  rw [if_neg (by simp [strTruthy, hq, hmem])]
  simp [strTruthy, hq, hm]

unseal List.merge List.mergeSort

theorem claim_C1_witness :
    ∃ (df1 : ResultDf) (w1 : List FileWrite) (df2 df3 df4 : ResultDf) (w4 : List FileWrite),
      find_pvalue trivStats scoresA phenoA "assoc.tsv" none "pheno" "IID"
        "mannwhitneyu" none none none none = .ok (df1, w1) ∧
      List.Sorted (fun a b : ResultRow => a.pval ≤ b.pval) df1.rows ∧
      w1 = [⟨"assoc.tsv", df1⟩] ∧
      get_pvals_linear trivStats hframeA ["g1"] ["PC1"] 1 = .ok df2 ∧
      List.Sorted (fun a b : ResultRow => a.pval ≤ b.pval) df2.rows ∧
      get_pvals_logit trivStats hframeA ["g1"] ["PC1"] 1 = .ok df3 ∧
      List.Sorted (fun a b : ResultRow => a.pval ≤ b.pval) df3.rows ∧
      calc_corr trivStats scoresA scoresA "IID" "corr.tsv" = .ok (df4, w4) ∧
      List.Sorted (fun a b : ResultRow => a.pval ≤ b.pval) df4.rows ∧
      w4 = [⟨"corr.tsv", df4⟩] := by
  obtain ⟨p1, h1⟩ : ∃ p, find_pvalue trivStats scoresA phenoA "assoc.tsv" none "pheno" "IID"
      "mannwhitneyu" none none none none = .ok p := ⟨_, rfl⟩
  obtain ⟨d2, h2⟩ : ∃ d, get_pvals_linear trivStats hframeA ["g1"] ["PC1"] 1 = .ok d := ⟨_, rfl⟩
  obtain ⟨d3, h3⟩ : ∃ d, get_pvals_logit trivStats hframeA ["g1"] ["PC1"] 1 = .ok d := ⟨_, rfl⟩
  obtain ⟨p4, h4⟩ : ∃ p, calc_corr trivStats scoresA scoresA "IID" "corr.tsv" = .ok p := ⟨_, rfl⟩
  obtain ⟨hs1, hw1⟩ := claim_C1_results_sorted_by_pvalue.1 trivStats scoresA phenoA "assoc.tsv"
    none "pheno" "IID" "mannwhitneyu" none none none none p1.1 p1.2 h1
  have hs2 := claim_C1_results_sorted_by_pvalue.2.1 trivStats hframeA ["g1"] ["PC1"] 1 d2 h2
  have hs3 := claim_C1_results_sorted_by_pvalue.2.2.1 trivStats hframeA ["g1"] ["PC1"] 1 d3 h3
  obtain ⟨hs4, hw4⟩ := claim_C1_results_sorted_by_pvalue.2.2.2 trivStats scoresA scoresA "IID"
    "corr.tsv" p4.1 p4.2 h4
  exact ⟨p1.1, p1.2, d2, d3, p4.1, p4.2, h1, hs1, hw1, h2, hs2, h3, hs3, h4, hs4, hw4⟩

theorem claim_C2_witness :
    ∃ (df : ScoresDf) (w : List MatrixWrite),
      combine_scores [profA, profB] "matrix.tsv" = .ok (df, w) ∧
      ("s2" ∈ df.rows.map Prod.fst ↔ ∀ f ∈ [profA, profB], "s2" ∈ f.rows.map Prod.fst) ∧
      df.genes = [profA, profB].filterMap
        (fun f => (profileGene f.name).map (fun g => String.mk g)) := by
  obtain ⟨p, hp⟩ : ∃ p, combine_scores [profA, profB] "matrix.tsv" = .ok p := ⟨_, rfl⟩
  obtain ⟨hkeys, hgen⟩ :=
    claim_C2_combine_scores_intersection [profA, profB] "matrix.tsv" p.1 p.2 hp
  exact ⟨p.1, p.2, hp, hkeys "s2", hgen⟩

theorem claim_C3_witness :
    (∃ rows, fp_twoGroupLoop failStats.mannwhitneyu gframeA [0, 1] ["g1", "g2"] = .ok rows ∧
      rows.map (fun r => r.gene) =
        (["g1", "g2"].filter (fun g =>
          (failStats.mannwhitneyu (fp_caseVals gframeA 0 g)
            (fp_caseVals gframeA 1 g)).isSome))) ∧
    ["g1", "g2"].filter (fun g =>
      (failStats.mannwhitneyu (fp_caseVals gframeA 0 g)
        (fp_caseVals gframeA 1 g)).isSome) = ["g1"] ∧
    (∀ g ∈ (["g1"] : List String), ∃ row,
      run_linear trivStats (g, hGeneCol hframeA g) (hXset hframeA ["PC1"])
        (hYset hframeA) = .ok row) := by
  refine ⟨?_, by decide, ?_⟩
  · exact claim_C3_per_gene_failures.1 failStats.mannwhitneyu gframeA [0, 1] 0 1
      ["g1", "g2"] rfl rfl (by decide) (by decide) (by decide)
  · intro g hg
    obtain ⟨d, hd⟩ : ∃ d, get_pvals_linear trivStats hframeA ["g1"] ["PC1"] 1 = .ok d :=
      ⟨_, rfl⟩
    exact claim_C3_per_gene_failures.2.1 trivStats hframeA ["g1"] ["PC1"] 1 d hd g hg

theorem claim_C4_witness :
    ((⟨"s1", some 0⟩ : PhenoRow) ∈ fp_dropna phenoA ∧
     (⟨"s4", none⟩ : PhenoRow) ∉ fp_dropna phenoA) ∧
    fp_default_genes scoresA = scoresA.genes := by
  refine ⟨⟨?_, ?_⟩, claim_C4_preprocessing.2.2 scoresA⟩
  · exact (claim_C4_preprocessing.1 phenoA _).mpr (by decide)
  · intro hmem
    have h2 := (claim_C4_preprocessing.1 phenoA _).mp hmem
    exact absurd h2.2 (by decide)

theorem claim_C5_witness :
    ∃ (df0 : ResultDf) (w0 : List FileWrite) (df : ResultDf) (w : List FileWrite),
      find_pvalue trivStats scoresA phenoA "adj.tsv" none "pheno" "IID"
        "mannwhitneyu" none none none none = .ok (df0, w0) ∧
      find_pvalue trivStats scoresA phenoA "adj.tsv" none "pheno" "IID"
        "mannwhitneyu" (some "bonferroni") none none none = .ok (df, w) ∧
      df.cols = df0.cols ++ ["bonferroni" ++ "_adj_pval"] := by
  obtain ⟨p0, h0⟩ : ∃ p, find_pvalue trivStats scoresA phenoA "adj.tsv" none "pheno" "IID"
      "mannwhitneyu" none none none none = .ok p := ⟨_, rfl⟩
  obtain ⟨df, w, hfp, hcols, hpv, hlast, hw⟩ :=
    claim_C5_adjusted_pvalue_column.1 trivStats scoresA phenoA "adj.tsv" none "pheno" "IID"
      "mannwhitneyu" none none none "bonferroni" p0.1 p0.2 (by decide) h0
      (by simp [trivStats, multipletests_bonferroni])
  exact ⟨p0.1, p0.2, df, w, h0, hfp, hcols⟩

theorem claim_C7_witness :
    find_pvalue trivStats scoresA phenoA "o.tsv" none "pheno" "IID" "betareg"
      none none none none = .error "The test you selected is not valid." :=
  claim_C7_invalid_test_error trivStats scoresA phenoA "o.tsv" none "pheno" "IID" "betareg"
    none none none none (by decide) (by decide) (by decide) (by decide)

theorem claim_C8_witness :
    create_prediction_model caretTriv "final_model" "cnn" "pheno" true true 10 []
      (some []) (1/4) none =
      ([], .ok (.exceptionValue
        "Model requested is not available. Please choose regressor or classifier.")) :=
  claim_C8_invalid_model_type_returned caretTriv "final_model" "cnn" "pheno" true true 10 []
    (some []) (1/4) none (by decide) (by decide)

theorem claim_C9_witness :
    fp_cc gframeA.rows none none = fp_groupKeys gframeA.rows ∧
    (0 : ℚ) ∈ gframeA.rows.map (fun r => r.outcome) ∧
    (1 : ℚ) ∈ gframeA.rows.map (fun r => r.outcome) ∧
    (0 : ℚ) < 1 ∧
    (∀ x ∈ gframeA.rows.map (fun r => r.outcome), (0 : ℚ) ≤ x) ∧
    (∀ x ∈ gframeA.rows.map (fun r => r.outcome), x ≠ 0 → (1 : ℚ) ≤ x) :=
  claim_C9_group_selection gframeA.rows 0 1 rfl rfl

theorem claim_C10_witness :
    visualize ["p_value"] none (some "qq.png") (some "man.png") "p_value" =
      ([.qqplot "qq.png"],
       .error "Please provide a file with gene information to generate manhattan plot.") :=
  claim_C10_qq_before_manhattan_error ["p_value"] "qq.png" "man.png" "p_value"
    (by decide) (by decide) (by decide)
